import Mathlib

/-!
Verification development for the AI-BUG-HUNTER repository.

The definitions below are a shallow embedding of the execution/control core:

* `sanitize_filename`, `validate_command`, `run_command`, `filter_output`,
  `run_ai_command`, `run_script` embed `src/command_executer.py`;
* `validate_response` embeds `AICyberSecurityAssistant.validate_response`
  from `src/ai.py` (taken at the level of the already-parsed JSON value;
  cleaning and `json.loads` happen at the caller boundary);
* `execute_ai_command`, `loopTurnCtx`, `runAux`, `runLoop` embed
  `PentestAutomation.execute_ai_command` / `PentestAutomation.run` from
  `src/main.py`.

Side-effecting calls (opening/truncating the output file, spawning a
process, writing a script, chmod, running the filter command) are recorded
as an explicit `Effect` trace, and the behaviour of the operating system
(whether the spawned process errors, times out, or exits) is an explicit
`RunBehavior` / `FilterBehavior` argument, so that every code path of the
source is a total computable Lean function of its inputs.
-/

/-- JSON values as produced by Python's `json.loads`.  Numbers are modelled
as integers (no claim below involves fractional numbers).  An `obj` models
the parsed `dict`: its keys are distinct, since `json.loads` collapses
duplicate keys before any of the embedded code runs. -/
inductive JVal where
  | null : JVal
  | bool (b : Bool) : JVal
  | num (n : Int) : JVal
  | str (s : String) : JVal
  | arr (elems : List JVal) : JVal
  | obj (entries : List (String × JVal)) : JVal

/-- Key lookup in an object (`data[k]` / `k in data` on the parsed dict);
`none` on non-objects and absent keys. -/
def jlookup : JVal → String → Option JVal
  | JVal.obj entries, k => entries.lookup k
  | _, _ => none

/-- Python `data.get(k, dflt)`. -/
def jGetD (data : JVal) (k : String) (dflt : JVal) : JVal :=
  (jlookup data k).getD dflt

/-- Python truthiness of a JSON value (`if not x`-style tests). -/
def pyTruthy : JVal → Bool
  | JVal.null => false
  | JVal.bool b => b
  | JVal.num n => n != 0
  | JVal.str s => s != ""
  | JVal.arr elems => !elems.isEmpty
  | JVal.obj entries => !entries.isEmpty

/-- The backquote character (code point 96), the argument of
`str.strip` in `run_ai_command` / `run_script`. -/
def backquoteChar : Char := Char.ofNat 96

/-- Python `s.strip(backquote)`: remove all leading and trailing
backquote characters. -/
def stripBackquotes (s : String) : String :=
  String.mk (((s.toList.dropWhile (· == backquoteChar)).reverse.dropWhile
      (· == backquoteChar)).reverse)

/-! ### `CommandExecutor.sanitize_filename` (command_executer.py lines 22-29) -/

/-- `os.path.basename` on POSIX: the suffix after the last `/`.
Implemented by accumulating characters and resetting at each separator. -/
def basenameAux : List Char → List Char → List Char
  | acc, [] => acc
  | acc, c :: cs => if c = '/' then basenameAux [] cs else basenameAux (acc ++ [c]) cs

/-- Latin-1 word characters of Python's Unicode-aware `\w` (for `str`
patterns, `re.ASCII` not given): the Latin-1 letters ª, µ, º and À-ÿ minus
× and ÷.  A few further Latin-1 numeric characters (², ³, ¹, ¼, ½, ¾) and
all word characters above U+00FF are also matched by Python's `\w` but are
not included here; no theorem in this file evaluates the predicate at
those code points. -/
def latin1Word (c : Char) : Bool :=
  decide (c = 'ª' ∨ c = 'µ' ∨ c = 'º' ∨
    (0xC0 ≤ c.toNat ∧ c.toNat ≤ 0xFF ∧ c ≠ '×' ∧ c ≠ '÷'))

/-- Python regex `\w` on the modelled character range: ASCII alphanumerics,
underscore, and Latin-1 word characters. -/
def pyIsWordChar (c : Char) : Bool :=
  c.isAlphanum || c == '_' || latin1Word c

/-- Characters left unchanged by `re.sub(r'[^\w\.\-_]', '_', ·)`:
the complement of the character class `[^\w\.\-_]`. -/
def keepChar (c : Char) : Bool :=
  pyIsWordChar c || c == '.' || c == '-' || c == '_'

/-- One character of the substitution `re.sub(r'[^\w\.\-_]', '_', ·)`. -/
def pySub (c : Char) : Char :=
  if keepChar c then c else '_'

/-- `CommandExecutor.sanitize_filename`: basename, replace characters
outside the class by `_`, truncate to 100 characters. -/
def sanitize_filename (s : String) : String :=
  String.mk (((basenameAux [] s.toList).map pySub).take 100)

/-- The character set `[A-Za-z0-9._-]` named by the specification's
sanitizer property. -/
def specAllowed (c : Char) : Bool :=
  c.isAlphanum || c == '.' || c == '_' || c == '-'

/-! ### `CommandExecutor.validate_command` (command_executer.py lines 31-43)

The ten concrete denylist regexes are compiled into token sequences over a
tiny backtracking matcher: a token is a literal or a character-class
repetition with lower bound `lo` and optional upper bound `hi`.  This is
exactly the shape of the source patterns (`rm\s+-rf`, `:\(\)\{`,
`chmod\s+[0-7]{3,4}\s+`, `wget\s+.*\|`, `curl\s+.*\|`, `mkfs`,
`dd\s+.*=`, `>/dev/sd`, `mount\s+`, `umount\s+`).  `re.IGNORECASE` is
modelled by lowercasing the input (every literal letter of the patterns is
lowercase ASCII). -/

/-- One token of a compiled denylist pattern. -/
inductive Tok where
  | lit (s : List Char) : Tok
  | cls (p : Char → Bool) (lo : Nat) (hi : Option Nat) : Tok

/-- Length of the maximal prefix of characters satisfying `p`. -/
def runLen (p : Char → Bool) : List Char → Nat
  | [] => 0
  | c :: cs => if p c then runLen p cs + 1 else 0

/-- Does the literal `s` start the character list? -/
def litAt : List Char → List Char → Bool
  | [], _ => true
  | _ :: _, [] => false
  | a :: as, c :: cs => a == c && litAt as cs

/-- Backtracking match of a token sequence at the start of the input: a
class token may consume any admissible number of class characters.  This
is the semantics of the source regexes, whose quantifiers all apply to
single character classes. -/
def matchToks : List Tok → List Char → Bool
  | [], _ => true
  | Tok.lit s :: ts, cs => litAt s cs && matchToks ts (cs.drop s.length)
  | Tok.cls p lo hi :: ts, cs =>
    let r := runLen p cs
    let top := match hi with | none => r | some h => min h r
    (List.range (top + 1)).any fun k => decide (lo ≤ k) && matchToks ts (cs.drop k)

/-- `re.search`: match the pattern at some position of the input. -/
def searchToks (toks : List Tok) (cs : List Char) : Bool :=
  (List.range (cs.length + 1)).any fun i => matchToks toks (cs.drop i)

/-- Python regex `\s` (ASCII range). -/
def wsChar (c : Char) : Bool :=
  c == ' ' || c == '\t' || c == '\n' || c == '\r' || c == '\x0b' || c == '\x0c'

/-- The character class `[0-7]`. -/
def octalChar (c : Char) : Bool :=
  decide ('0' ≤ c) && decide (c ≤ '7')

/-- The regex `.`: any character except a newline. -/
def notNL (c : Char) : Bool :=
  !(c == '\n')

/-- The denylist of `validate_command`, pattern by pattern in source
order. -/
def dangerous_patterns : List (List Tok) :=
  [ [Tok.lit "rm".toList, Tok.cls wsChar 1 none, Tok.lit "-rf".toList],
    [Tok.lit ":()\x7b".toList],
    [Tok.lit "chmod".toList, Tok.cls wsChar 1 none, Tok.cls octalChar 3 (some 4),
      Tok.cls wsChar 1 none],
    [Tok.lit "wget".toList, Tok.cls wsChar 1 none, Tok.cls notNL 0 none,
      Tok.lit "|".toList],
    [Tok.lit "curl".toList, Tok.cls wsChar 1 none, Tok.cls notNL 0 none,
      Tok.lit "|".toList],
    [Tok.lit "mkfs".toList],
    [Tok.lit "dd".toList, Tok.cls wsChar 1 none, Tok.cls notNL 0 none,
      Tok.lit "=".toList],
    [Tok.lit ">/dev/sd".toList],
    [Tok.lit "mount".toList, Tok.cls wsChar 1 none],
    [Tok.lit "umount".toList, Tok.cls wsChar 1 none] ]

/-- `CommandExecutor.validate_command`: `False` iff some denylist pattern
matches the command (case-insensitively). -/
def validate_command (command : String) : Bool :=
  !(dangerous_patterns.any fun p => searchToks p (command.toList.map Char.toLower))

/-! ### `CommandExecutor.run_command` (command_executer.py lines 45-68) -/

/-- What the operating system does with the spawned process: `Popen`
raises, `wait(timeout=300)` raises `TimeoutExpired`, or the process exits
(with any exit code) within the timeout. -/
inductive RunBehavior where
  | spawnError : RunBehavior
  | timeout : RunBehavior
  | exited (code : Int) : RunBehavior
deriving DecidableEq

/-- Side effects performed by the embedded code, in order.  `kill` would
record a call to `Popen.kill`/`Popen.terminate`; the source contains no
such call (`Popen.wait(timeout=...)` does not kill the child when it
raises `TimeoutExpired`), so no definition in this file ever emits it. -/
inductive Effect where
  | openTrunc (path : String) : Effect
  | spawn (command : String) (cwd : Option String) : Effect
  | kill : Effect
  | filterRun : Effect
  | writeScript (path content : String) : Effect
  | chmodExec (path : String) : Effect
deriving DecidableEq

/-- `CommandExecutor.run_command`: validation first (returning `False`
before any file is touched when a denylist pattern matches), then
`open(output_path, 'w')` (create/truncate), then `Popen` + `wait` with the
300-second timeout.  Success is reported whenever the process exited
within the timeout, whatever its exit code; `TimeoutExpired` and any spawn
exception are caught and reported as `False`. -/
def run_command (command output_path : String) (cwd : Option String)
    (b : RunBehavior) : Bool × List Effect :=
  if validate_command command then
    match b with
    | RunBehavior.spawnError => (false, [Effect.openTrunc output_path])
    | RunBehavior.timeout =>
        (false, [Effect.openTrunc output_path, Effect.spawn command cwd])
    | RunBehavior.exited _ =>
        (true, [Effect.openTrunc output_path, Effect.spawn command cwd])
  else (false, [])

/-! ### `CommandExecutor.filter_output` (command_executer.py lines 70-86) -/

/-- What `subprocess.run(filter_command, shell=True, timeout=60)` does:
completes with a return code and captured streams, raises
`TimeoutExpired`, or raises some other exception rendered as `msg`. -/
inductive FilterBehavior where
  | completed (returncode : Int) (out err : String) : FilterBehavior
  | timedOut : FilterBehavior
  | raised (msg : String) : FilterBehavior

/-- `CommandExecutor.filter_output`: stdout on exit code 0, a
`"Filter error: "`-prefixed diagnostic on nonzero exit or on any other
exception, and a fixed marker string on timeout.  Totality of this
function is the embedding of "never raises to its caller". -/
def filter_output : FilterBehavior → String
  | FilterBehavior.completed returncode out err =>
      if returncode = 0 then out else "Filter error: " ++ err
  | FilterBehavior.timedOut => "Filter command timed out"
  | FilterBehavior.raised msg => "Filter error: " ++ msg

/-! ### `CommandExecutor.run_ai_command` / `run_script`
(command_executer.py lines 88-180)

Both take the already-parsed JSON value (`json.loads` of the AI response
happens at the caller boundary in `main.py`, and its failure is handled
there).  Field extraction follows the source order and raises exactly
where the source raises: `.strip` on a non-string `content` is an
`AttributeError`, `sanitize_filename` (via `os.path.basename`) on a
non-string is a `TypeError`. -/

/-- Exceptions the embedded extraction code can raise. -/
inductive PyErr where
  | typeError : PyErr
  | attributeError : PyErr
deriving DecidableEq

/-- `data.get("content", "").strip(backquote)` (raises on a non-string
value). -/
def contentOf (data : JVal) : Except PyErr String :=
  match jlookup data "content" with
  | none => Except.ok ""
  | some (JVal.str s) => Except.ok (stripBackquotes s)
  | some _ => Except.error PyErr.attributeError

/-- `sanitize_filename(data.get("output_name", "output.txt"))` (raises on
a non-string value). -/
def outputNameOf (data : JVal) : Except PyErr String :=
  match jlookup data "output_name" with
  | none => Except.ok (sanitize_filename "output.txt")
  | some (JVal.str s) => Except.ok (sanitize_filename s)
  | some _ => Except.error PyErr.typeError

/-- `sanitize_filename(data.get("script_name", "ai_script"))`. -/
def scriptNameOf (data : JVal) : Except PyErr String :=
  match jlookup data "script_name" with
  | none => Except.ok (sanitize_filename "ai_script")
  | some (JVal.str s) => Except.ok (sanitize_filename s)
  | some _ => Except.error PyErr.typeError

/-- `data.get("script_type", "").strip().lower()`. -/
def scriptTypeOf (data : JVal) : Except PyErr String :=
  match jlookup data "script_type" with
  | none => Except.ok ""
  | some (JVal.str s) => Except.ok s.trim.toLower
  | some _ => Except.error PyErr.attributeError

/-- `CommandExecutor.run_ai_command` on the parsed payload, returning the
string handed back to the loop together with the effect trace. -/
def run_ai_command (data : JVal) (rb : RunBehavior) (fb : FilterBehavior) :
    Except PyErr (String × List Effect) :=
  match contentOf data with
  | Except.error e => Except.error e
  | Except.ok command =>
    match outputNameOf data with
    | Except.error e => Except.error e
    | Except.ok output_name =>
      let return_to_ai := jGetD data "return_to_ai" (JVal.str "")
      let should_continue := jGetD data "continue" (JVal.bool true)
      if command = "" then Except.ok ("No command to execute.", [])
      else
        let output_path := "command_outputs/" ++ output_name
        let res := run_command command output_path none rb
        if res.1 = false then
          Except.ok ("Error executing command: " ++ command, res.2)
        else
          let withFilter :=
            if pyTruthy return_to_ai then (filter_output fb, res.2 ++ [Effect.filterRun])
            else ("", res.2)
          if pyTruthy should_continue = false then
            Except.ok ("Stopping as requested.", withFilter.2)
          else
            Except.ok
              ((if withFilter.1 != "" then withFilter.1
                else "(Raw output saved to " ++ output_name ++ ")"), withFilter.2)

/-- `CommandExecutor.run_script` on the parsed payload.  The script body
is written (and chmodded when bash) before the script-type dispatch, as in
the source; an unsupported type returns its error string after the
write. -/
def run_script (data : JVal) (rb : RunBehavior) (fb : FilterBehavior) :
    Except PyErr (String × List Effect) :=
  match contentOf data with
  | Except.error e => Except.error e
  | Except.ok script_content =>
    match outputNameOf data with
    | Except.error e => Except.error e
    | Except.ok output_name =>
      let return_to_ai := jGetD data "return_to_ai" (JVal.str "")
      let should_continue := jGetD data "continue" (JVal.bool true)
      match scriptNameOf data with
      | Except.error e => Except.error e
      | Except.ok script_name =>
        match scriptTypeOf data with
        | Except.error e => Except.error e
        | Except.ok script_type =>
          let script_path := "scripts/" ++ script_name
          let effs0 := [Effect.writeScript script_path script_content] ++
            (if script_type = "bash" then [Effect.chmodExec script_path] else [])
          if script_type = "python" ∨ script_type = "bash" then
            let cmd := if script_type = "python" then "python3 " ++ script_path
              else "bash " ++ script_path
            let res := run_command cmd ("command_outputs/" ++ output_name)
              (some "scripts") rb
            if res.1 = false then
              Except.ok ("Error executing script: " ++ script_name, effs0 ++ res.2)
            else
              let withFilter :=
                if pyTruthy return_to_ai then
                  (filter_output fb, effs0 ++ res.2 ++ [Effect.filterRun])
                else ("", effs0 ++ res.2)
              if pyTruthy should_continue = false then
                Except.ok ("Stopping as requested.", withFilter.2)
              else
                Except.ok
                  ((if withFilter.1 != "" then withFilter.1
                    else "(Raw output saved to " ++ output_name ++ ")"), withFilter.2)
          else
            Except.ok ("Error: Unsupported script type " ++ script_type, effs0)

/-! ### `AICyberSecurityAssistant.validate_response` (ai.py lines 135-177) -/

/-- Is one of the four required fields absent?  (The source loops over
`["type", "content", "reason", "continue"]` and returns `False` at the
first absent one.) -/
def reqFieldMissing (data : JVal) : Bool :=
  (jlookup data "type").isNone || (jlookup data "content").isNone ||
    (jlookup data "reason").isNone || (jlookup data "continue").isNone

/-- `data["type"] == v` for a string `v` (a non-string value compares
unequal). -/
def typeIsStr (data : JVal) (v : String) : Bool :=
  match jlookup data "type" with
  | some (JVal.str s) => s == v
  | _ => false

/-- `data["script_type"] in ["bash", "python"]` with presence check. -/
def scriptTypeValid (data : JVal) : Bool :=
  match jlookup data "script_type" with
  | some (JVal.str s) => s == "bash" || s == "python"
  | _ => false

/-- `validate_response` on the parsed value.  Non-object payloads reach
`False` in the source through the membership test or a caught `TypeError`;
the knowledge-reference lookup only warns and never affects the result.
Note the source checks only the *presence* of `script_name`, not its
non-emptiness. -/
def validate_response (data : JVal) : Bool :=
  match data with
  | JVal.obj _ =>
    if reqFieldMissing data then false
    else if !(typeIsStr data "command" || typeIsStr data "script") then false
    else if typeIsStr data "script" then
      scriptTypeValid data && (jlookup data "script_name").isSome
    else true
  | _ => false

/-! ### `PentestAutomation` (main.py lines 47-121) -/

/-- `PentestAutomation.execute_ai_command`: validation failure, an unknown
action type, or any exception raised while executing yields `None`
(logged and swallowed); otherwise the executor's result string. -/
def execute_ai_command (parsed : Option JVal) (rb : RunBehavior)
    (fb : FilterBehavior) : Option String :=
  match parsed with
  | none => none
  | some data =>
    if !validate_response data then none
    else
      match jlookup data "type" with
      | some (JVal.str "command") =>
        match run_ai_command data rb fb with
        | Except.ok r => some r.1
        | Except.error _ => none
      | some (JVal.str "script") =>
        match run_script data rb fb with
        | Except.ok r => some r.1
        | Except.error _ => none
      | _ => none

/-- The environment of one loop turn: the oracle is silent (`chat`
returned `None` or an empty string), replies with text that fails
`json.loads`, or replies with text parsing to a JSON value, in which case
the operating-system behaviour of that turn's execution and filtering is
also given. -/
inductive TurnInput where
  | silence : TurnInput
  | unparseable : TurnInput
  | payload (data : JVal) (rb : RunBehavior) (fb : FilterBehavior) : TurnInput

/-- Context truncation (main.py lines 118-119): keep the most recent 4000
characters when the context exceeds 4000 characters. -/
def truncCtx (s : String) : String :=
  if s.length > 4000 then String.mk (s.toList.drop (s.toList.length - 4000)) else s

/-- The body of one `while` iteration after the counter increment
(main.py lines 90-119), as a function of the turn's environment and the
current context: returns the new context and whether the loop keeps
running.  Oracle silence is `continue` (retry); an unparseable reply makes
`execute_ai_command` return `None`, which is `break`; otherwise the result
is folded into the context unless the payload's `continue` field is falsy,
which is `break` before the context update. -/
def loopTurnCtx (inp : TurnInput) (ctx : String) : String × Bool :=
  match inp with
  | TurnInput.silence => (ctx, true)
  | TurnInput.unparseable => (ctx, false)
  | TurnInput.payload data rb fb =>
    match execute_ai_command (some data) rb fb with
    | none => (ctx, false)
    | some out =>
      if pyTruthy (jGetD data "continue" (JVal.bool true)) = false then (ctx, false)
      else (truncCtx (ctx ++ "\nLast command output: " ++ out), true)

/-- The `while self.iteration < self.max_iterations` loop, driven by the
remaining number of admissible iterations (`fuel = maxIterations -
iteration`): each executed turn increments the counter by exactly one. -/
def runAux (inputs : Nat → TurnInput) : Nat → Nat → String → Nat × String
  | 0, i, ctx => (i, ctx)
  | fuel + 1, i, ctx =>
    match loopTurnCtx (inputs i) ctx with
    | (ctx', true) => runAux inputs fuel (i + 1) ctx'
    | (ctx', false) => (i + 1, ctx')

/-- `PentestAutomation.run` from iteration `i` with iteration cap `m`:
final value of the iteration counter and final context. -/
def runLoop (inputs : Nat → TurnInput) (m i : Nat) (ctx : String) : Nat × String :=
  runAux inputs (m - i) i ctx

/-! ### Concrete payloads used by the claim-level theorems -/

/-- A well-formed command payload whose execution will fail at the
operating-system level. -/
def payloadCmdFail : JVal := JVal.obj
  [("type", JVal.str "command"), ("content", JVal.str "nmap -p 80 host"),
   ("reason", JVal.str "scan"), ("continue", JVal.bool true)]

/-- A run whose first turn is `payloadCmdFail` with a spawn error and
whose later turns are oracle silence. -/
def cexInputs : Nat → TurnInput := fun k =>
  if k = 0 then
    TurnInput.payload payloadCmdFail RunBehavior.spawnError (FilterBehavior.completed 0 "" "")
  else TurnInput.silence

/-- A well-formed command payload whose command matches the denylist
(`rm\s+-rf`). -/
def payloadBlocked : JVal := JVal.obj
  [("type", JVal.str "command"), ("content", JVal.str "rm -rf /tmp/x"),
   ("reason", JVal.str "cleanup"), ("continue", JVal.bool true)]

/-- A script payload with all required fields, a valid script type, and a
present but empty `script_name`. -/
def payloadScriptEmptyName : JVal := JVal.obj
  [("type", JVal.str "script"), ("content", JVal.str "echo hi"),
   ("reason", JVal.str "r"), ("continue", JVal.bool true),
   ("script_type", JVal.str "bash"), ("script_name", JVal.str "")]

/-- A payload with an empty `content` but a non-string `output_name`. -/
def payloadBadOutputName : JVal := JVal.obj
  [("content", JVal.str ""), ("output_name", JVal.num 5)]

/-! ### Helper lemmas -/

/-- Characters of the basename accumulator come from the accumulator or
the input. -/
theorem mem_basenameAux :
    ∀ (l acc : List Char) (x : Char), x ∈ basenameAux acc l → x ∈ acc ∨ x ∈ l := by
  intro l
  induction l with
  | nil =>
    intro acc x h
    exact Or.inl (by simpa [basenameAux] using h)
  | cons c cs ih =>
    intro acc x h
    simp only [basenameAux] at h
    by_cases hc : c = '/'
    · rw [if_pos hc] at h
      rcases ih [] x h with h' | h'
      · exact absurd h' (List.not_mem_nil x)
      · exact Or.inr (List.mem_cons_of_mem _ h')
    · rw [if_neg hc] at h
      rcases ih (acc ++ [c]) x h with h' | h'
      · rcases List.mem_append.mp h' with h'' | h''
        · exact Or.inl h''
        · simp only [List.mem_singleton] at h''
          exact Or.inr (h'' ▸ List.mem_cons_self c cs)
      · exact Or.inr (List.mem_cons_of_mem _ h')

/-- The substitution never produces a path separator. -/
theorem pySub_ne_sep (a : Char) : pySub a ≠ '/' ∧ pySub a ≠ '\\' := by
  by_cases h : keepChar a = true
  · rw [pySub, if_pos h]
    refine ⟨fun ha => ?_, fun ha => ?_⟩ <;> (subst ha; exact absurd h (by decide))
  · rw [pySub, if_neg h]
    exact ⟨by decide, by decide⟩

/-- Latin-1 word characters lie above the ASCII range. -/
theorem latin1_ge (a : Char) (h : latin1Word a = true) : 128 ≤ a.toNat := by
  simp only [latin1Word, decide_eq_true_eq] at h
  rcases h with h | h | h | h
  · subst h; decide
  · subst h; decide
  · subst h; decide
  · omega

/-- On ASCII characters, the kept characters of the substitution are
exactly the specification's `[A-Za-z0-9._-]`. -/
theorem ascii_keep (a : Char) (hlt : a.toNat < 128) (h : keepChar a = true) :
    specAllowed a = true := by
  simp only [keepChar, pyIsWordChar, Bool.or_eq_true] at h
  rcases h with ((((h | h) | h) | h) | h) | h
  · simp [specAllowed, h]
  · simp [specAllowed, h]
  · exact absurd (latin1_ge a h) (by omega)
  · simp [specAllowed, h]
  · simp [specAllowed, h]
  · simp [specAllowed, h]

/-- A blocked command performs no effect and reports `False`, whatever
the operating system would have done. -/
theorem run_command_blocked (cmd path : String) (cw : Option String) (b : RunBehavior)
    (hv : validate_command cmd = false) : run_command cmd path cw b = (false, []) := by
  cases b <;> simp [run_command, hv]

/-- The final iteration counter is bounded by the starting counter plus
the fuel. -/
theorem runAux_le (inputs : Nat → TurnInput) :
    ∀ (fuel i : Nat) (ctx : String), (runAux inputs fuel i ctx).1 ≤ i + fuel := by
  intro fuel
  induction fuel with
  | zero => intro i ctx; simp [runAux]
  | succ f ih =>
    intro i ctx
    rcases h : loopTurnCtx (inputs i) ctx with ⟨ctx', cont⟩
    cases cont
    · simp only [runAux, h]
      omega
    · simp only [runAux, h]
      have := ih (i + 1) ctx'
      omega

/-- The iteration counter never decreases. -/
theorem runAux_ge (inputs : Nat → TurnInput) :
    ∀ (fuel i : Nat) (ctx : String), i ≤ (runAux inputs fuel i ctx).1 := by
  intro fuel
  induction fuel with
  | zero => intro i ctx; simp [runAux]
  | succ f ih =>
    intro i ctx
    rcases h : loopTurnCtx (inputs i) ctx with ⟨ctx', cont⟩
    cases cont
    · simp [runAux, h]
    · simp only [runAux, h]
      have := ih (i + 1) ctx'
      omega

/-- A silent-oracle turn retries: the counter advances, the context is
unchanged, and the run goes on. -/
theorem runAux_silence (inputs : Nat → TurnInput) (f i : Nat) (ctx : String)
    (h : inputs i = TurnInput.silence) :
    runAux inputs (f + 1) i ctx = runAux inputs f (i + 1) ctx := by
  simp [runAux, h, loopTurnCtx]

/-! ### Claim theorems -/

/-- C1, counterexample: the claim that every output character lies in
`[A-Za-z0-9._-]` fails at the input `"é"`: Python's `\w` is Unicode-aware,
so `sanitize_filename` keeps the letter é unchanged. -/
theorem sanitize_filename_unicode_cex :
    sanitize_filename "é" = "é"
    ∧ (sanitize_filename "é").toList.all specAllowed = false := ⟨rfl, rfl⟩

/-- C1 (amended): for every input filename the sanitized name contains no
path separator and has length at most 100; and whenever the input is pure
ASCII, every output character lies in `[A-Za-z0-9._-]`. -/
theorem sanitize_filename_spec :
    ∀ s : String,
      (sanitize_filename s).length ≤ 100
      ∧ (∀ c ∈ (sanitize_filename s).toList, c ≠ '/' ∧ c ≠ '\\')
      ∧ ((∀ c ∈ s.toList, c.toNat < 128) →
          ∀ c ∈ (sanitize_filename s).toList, specAllowed c = true) := by
  intro s
  refine ⟨?_, ?_, ?_⟩
  · show (((basenameAux [] s.toList).map pySub).take 100).length ≤ 100
    rw [List.length_take]
    exact Nat.min_le_left _ _
  · intro c hc
    have hc' : c ∈ (basenameAux [] s.toList).map pySub := List.mem_of_mem_take hc
    obtain ⟨a, _, rfl⟩ := List.mem_map.mp hc'
    exact pySub_ne_sep a
  · intro hA c hc
    have hc' : c ∈ (basenameAux [] s.toList).map pySub := List.mem_of_mem_take hc
    obtain ⟨a, haMem, rfl⟩ := List.mem_map.mp hc'
    have haS : a ∈ s.toList := by
      rcases mem_basenameAux s.toList [] a haMem with h' | h'
      · exact absurd h' (List.not_mem_nil a)
      · exact h'
    have hlt := hA a haS
    by_cases hk : keepChar a = true
    · rw [pySub, if_pos hk]
      exact ascii_keep a hlt hk
    · rw [pySub, if_neg hk]
      decide

/-- C1 witness: the theorem applied at the ASCII path-traversal input
`"../etc/passwd"`. -/
theorem sanitize_filename_spec_witness :
    (sanitize_filename "../etc/passwd").length ≤ 100
    ∧ (∀ c ∈ (sanitize_filename "../etc/passwd").toList, specAllowed c = true) :=
  ⟨(sanitize_filename_spec "../etc/passwd").1,
   (sanitize_filename_spec "../etc/passwd").2.2 (by decide)⟩

/-- C3: every command matching a denylist pattern is rejected, matching is
case-insensitive (uppercase `ChMod` is also caught), `rm -rf /` and
`chmod 777 /etc` are rejected, and the benign `ls -la` is accepted. -/
theorem validate_command_denylist :
    (∀ command : String,
        (dangerous_patterns.any fun p =>
          searchToks p (command.toList.map Char.toLower)) = true →
        validate_command command = false)
    ∧ validate_command "rm -rf /" = false
    ∧ validate_command "chmod 777 /etc" = false
    ∧ validate_command "ChMod 777 /etc" = false
    ∧ validate_command "ls -la" = true := by
  refine ⟨fun command h => ?_, by decide, by decide, by decide, by decide⟩
  unfold validate_command
  rw [h]
  rfl

/-- C3 witness: the universal part applied at `"rm -rf /tmp"`. -/
theorem validate_command_denylist_witness :
    validate_command "rm -rf /tmp" = false :=
  validate_command_denylist.1 "rm -rf /tmp" (by decide)

/-- C6: `filter_output` is a total function (it never raises): nonzero
exit yields the `"Filter error: "`-prefixed diagnostic with the captured
error stream, exit 0 yields the captured standard output, timeout yields
the fixed marker, and any other exception degrades to a diagnostic. -/
theorem filter_output_spec :
    (∀ (rc : Int) (out err : String), rc ≠ 0 →
        filter_output (FilterBehavior.completed rc out err) = "Filter error: " ++ err)
    ∧ (∀ out err : String, filter_output (FilterBehavior.completed 0 out err) = out)
    ∧ filter_output FilterBehavior.timedOut = "Filter command timed out"
    ∧ (∀ msg : String, filter_output (FilterBehavior.raised msg) = "Filter error: " ++ msg) := by
  refine ⟨fun rc out err h => ?_, fun out err => ?_, rfl, fun msg => rfl⟩
  · simp [filter_output, h]
  · simp [filter_output]

/-- C6 witness: the nonzero-exit case at return code 1. -/
theorem filter_output_spec_witness :
    filter_output (FilterBehavior.completed 1 "" "grep: bad pattern")
      = "Filter error: grep: bad pattern" :=
  filter_output_spec.1 1 "" "grep: bad pattern" (by decide)

/-- C7, counterexample: on timeout the claim says the process is
terminated, but the trace of `run_command` on a timing-out command
contains the spawn and no kill — `Popen.wait(timeout=300)` raises
`TimeoutExpired` without killing the child, and the source never calls
`kill`/`terminate`. -/
theorem timeout_no_kill_cex :
    (run_command "sleep 400" "command_outputs/o.txt" none RunBehavior.timeout).1 = false
    ∧ Effect.spawn "sleep 400" none
        ∈ (run_command "sleep 400" "command_outputs/o.txt" none RunBehavior.timeout).2
    ∧ Effect.kill
        ∉ (run_command "sleep 400" "command_outputs/o.txt" none RunBehavior.timeout).2 :=
  ⟨rfl, by decide, by decide⟩

/-- C7 (amended): `run_command` reports success exactly when the process
was spawned and exited within the 300-second timeout, independent of the
exit code; on timeout it reports failure (with the timeout logged as the
reason) rather than hanging, but the child process is not terminated. -/
theorem run_command_success_spec :
    ∀ (cmd path : String) (cw : Option String) (b : RunBehavior),
      ((run_command cmd path cw b).1 = true ↔
        (∃ k : Int, b = RunBehavior.exited k)
          ∧ Effect.spawn cmd cw ∈ (run_command cmd path cw b).2)
      ∧ (b = RunBehavior.timeout → (run_command cmd path cw b).1 = false
          ∧ Effect.kill ∉ (run_command cmd path cw b).2)
      ∧ (∀ k₁ k₂ : Int, run_command cmd path cw (RunBehavior.exited k₁)
          = run_command cmd path cw (RunBehavior.exited k₂)) := by
  intro cmd path cw b
  refine ⟨?_, fun hb => ?_, fun k₁ k₂ => ?_⟩
  · by_cases hv : validate_command cmd = true
    · cases b <;> simp [run_command, hv]
    · rw [Bool.not_eq_true] at hv
      cases b <;> simp [run_command, hv]
  · subst hb
    by_cases hv : validate_command cmd = true
    · simp [run_command, hv]
    · rw [Bool.not_eq_true] at hv
      simp [run_command, hv]
  · by_cases hv : validate_command cmd = true
    · simp [run_command, hv]
    · rw [Bool.not_eq_true] at hv
      simp [run_command, hv]

/-- C7 witness: the timeout case at `"ls -la"`. -/
theorem run_command_success_spec_witness :
    (run_command "ls -la" "command_outputs/o.txt" none RunBehavior.timeout).1 = false
    ∧ Effect.kill
        ∉ (run_command "ls -la" "command_outputs/o.txt" none RunBehavior.timeout).2 :=
  (run_command_success_spec "ls -la" "command_outputs/o.txt" none RunBehavior.timeout).2.1 rfl

/-- C8, counterexample: the claim says a blocked command still leaves the
output file and a spawn failure leaves none; the code does the opposite —
validation returns before `open`, so a blocked command touches no file,
while `open(output_path, 'w')` runs before `Popen`, so a spawn failure has
already created/truncated the file. -/
theorem outfile_cases_cex :
    Effect.openTrunc "command_outputs/o.txt"
        ∉ (run_command "rm -rf /" "command_outputs/o.txt" none (RunBehavior.exited 0)).2
    ∧ Effect.openTrunc "command_outputs/o.txt"
        ∈ (run_command "ls -la" "command_outputs/o.txt" none RunBehavior.spawnError).2 :=
  ⟨by decide, by decide⟩

/-- C8 (amended): after `run_command`, the file at `outputFilePath` is
created/truncated in every case where validation passes — including
timeout and spawn failure — while a blocked command performs no file
operation at all. -/
theorem run_command_outfile :
    ∀ (cmd path : String) (cw : Option String) (b : RunBehavior),
      (validate_command cmd = true →
        Effect.openTrunc path ∈ (run_command cmd path cw b).2)
      ∧ (validate_command cmd = false → (run_command cmd path cw b).2 = []) := by
  intro cmd path cw b
  constructor
  · intro hv
    cases b <;> simp [run_command, hv]
  · intro hv
    rw [run_command_blocked cmd path cw b hv]

/-- C8 witness: a timed-out command still leaves the (truncated) file. -/
theorem run_command_outfile_witness :
    Effect.openTrunc "command_outputs/x"
      ∈ (run_command "ls -la" "command_outputs/x" none RunBehavior.timeout).2 :=
  (run_command_outfile "ls -la" "command_outputs/x" none RunBehavior.timeout).1 (by decide)

/-- C2, counterexample: a turn whose execution fails outright (spawn
error on a validated command) does not stop the run — the loop body
reports `continue` and, in a run capped at 2 iterations whose first turn
is exactly such a failure, a second iteration still executes (the final
counter is 2). -/
theorem exec_failure_cex :
    (loopTurnCtx (TurnInput.payload payloadCmdFail RunBehavior.spawnError
        (FilterBehavior.completed 0 "" "")) "").2 = true
    ∧ (runLoop cexInputs 2 0 "").1 = 2 := ⟨rfl, rfl⟩

/-- C2 (amended): execution failure is not fatal to the run — for every
validated command payload with a truthy `continue` field whose
`run_command` fails (blocked, spawn error, or timeout), the turn folds
`"Error executing command: <cmd>"` into the context and the loop keeps
running; the run stops instead when response validation or decoding
fails. -/
theorem exec_failure_not_fatal :
    ∀ (data : JVal) (rb : RunBehavior) (fb : FilterBehavior) (ctx c n : String),
      validate_response data = true →
      jlookup data "type" = some (JVal.str "command") →
      contentOf data = Except.ok c →
      c ≠ "" →
      outputNameOf data = Except.ok n →
      (run_command c ("command_outputs/" ++ n) none rb).1 = false →
      pyTruthy (jGetD data "continue" (JVal.bool true)) = true →
      loopTurnCtx (TurnInput.payload data rb fb) ctx
        = (truncCtx (ctx ++ "\nLast command output: "
            ++ ("Error executing command: " ++ c)), true) := by
  intro data rb fb ctx c n hvalid htype hc hne hn hfail hcont
  have hrun : run_ai_command data rb fb
      = Except.ok ("Error executing command: " ++ c,
          (run_command c ("command_outputs/" ++ n) none rb).2) := by
    simp only [run_ai_command, hc, hn]
    rw [if_neg hne]
    simp [hfail]
  have hexec : execute_ai_command (some data) rb fb
      = some ("Error executing command: " ++ c) := by
    simp only [execute_ai_command, hvalid, htype]
    simp [hrun]
  simp only [loopTurnCtx, hexec]
  simp [hcont]

/-- C2 witness: the theorem applied to `payloadCmdFail` with a timeout. -/
theorem exec_failure_not_fatal_witness :
    loopTurnCtx (TurnInput.payload payloadCmdFail RunBehavior.timeout
        (FilterBehavior.completed 0 "" "")) ""
      = (truncCtx ("" ++ "\nLast command output: "
          ++ ("Error executing command: " ++ "nmap -p 80 host")), true) :=
  exec_failure_not_fatal payloadCmdFail RunBehavior.timeout
    (FilterBehavior.completed 0 "" "") "" "nmap -p 80 host" "output.txt"
    rfl rfl rfl (by decide) rfl rfl rfl

/-- C4, counterexample: a blocked command is not distinguishable from a
generic execution failure — `run_command` returns the same `False` for a
denylisted command as for a spawn error, and `run_ai_command` surfaces
the same generic `"Error executing command: <cmd>"` string. -/
theorem blocked_outcome_cex :
    (run_command "rm -rf /tmp/x" "command_outputs/o.txt" none (RunBehavior.exited 0)).1
      = (run_command "ls -la" "command_outputs/o.txt" none RunBehavior.spawnError).1
    ∧ run_ai_command payloadBlocked (RunBehavior.exited 0) (FilterBehavior.completed 0 "" "")
      = Except.ok ("Error executing command: rm -rf /tmp/x", []) := ⟨rfl, rfl⟩

/-- C4 (amended): execution of a denylisted command is refused — no file
is opened and no process is spawned — but the surfaced outcome is the
generic one: `run_command` returns the same `False` as a spawn error or
timeout, and `run_ai_command` returns the same
`"Error executing command: <cmd>"` string; no distinct "blocked" marker
exists. -/
theorem blocked_refusal_generic :
    (∀ (cmd path : String) (cw : Option String) (b : RunBehavior),
        validate_command cmd = false → run_command cmd path cw b = (false, []))
    ∧ (∀ (data : JVal) (rb : RunBehavior) (fb : FilterBehavior) (c n : String),
        contentOf data = Except.ok c → outputNameOf data = Except.ok n →
        c ≠ "" → validate_command c = false →
        run_ai_command data rb fb
          = Except.ok ("Error executing command: " ++ c, [])) := by
  refine ⟨fun cmd path cw b hv => run_command_blocked cmd path cw b hv,
    fun data rb fb c n hc hn hne hv => ?_⟩
  have hb := run_command_blocked c ("command_outputs/" ++ n) none rb hv
  simp only [run_ai_command, hc, hn]
  rw [if_neg hne]
  simp [hb]

/-- C4 witness: the `run_ai_command` part applied to a denylisted
command payload. -/
theorem blocked_refusal_generic_witness :
    run_ai_command (JVal.obj [("content", JVal.str "rm -rf /data")])
        RunBehavior.timeout (FilterBehavior.completed 0 "" "")
      = Except.ok ("Error executing command: rm -rf /data", []) :=
  blocked_refusal_generic.2 (JVal.obj [("content", JVal.str "rm -rf /data")])
    RunBehavior.timeout (FilterBehavior.completed 0 "" "") "rm -rf /data" "output.txt"
    rfl rfl (by decide) (by decide)

/-- C5, counterexample: a script payload whose `script_name` is present
but empty is accepted by `validate_response` — the source checks only
presence, not non-emptiness — contradicting the claim that an empty
`scriptName` is rejected. -/
theorem empty_script_name_cex :
    jlookup payloadScriptEmptyName "script_name" = some (JVal.str "")
    ∧ validate_response payloadScriptEmptyName = true := ⟨rfl, rfl⟩

/-- C5 (amended): `validate_response` rejects every payload missing one
of the required fields `type`, `content`, `reason`, `continue`; rejects
every payload whose `type` is neither `command` nor `script`; and for
`type == script` additionally rejects a `script_type` outside
`{bash, python}` and an *absent* `script_name` (a present-but-empty
`script_name` is accepted). -/
theorem validate_response_rejections :
    (∀ (data : JVal) (f : String), f ∈ ["type", "content", "reason", "continue"] →
        jlookup data f = none → validate_response data = false)
    ∧ (∀ data : JVal, typeIsStr data "command" = false → typeIsStr data "script" = false →
        validate_response data = false)
    ∧ (∀ data : JVal, typeIsStr data "script" = true → scriptTypeValid data = false →
        validate_response data = false)
    ∧ (∀ data : JVal, typeIsStr data "script" = true → jlookup data "script_name" = none →
        validate_response data = false) := by
  refine ⟨fun data f hf hnone => ?_, fun data h1 h2 => ?_, fun data h1 h2 => ?_,
    fun data h1 h2 => ?_⟩
  · have hm : reqFieldMissing data = true := by
      fin_cases hf <;> simp [reqFieldMissing, hnone]
    cases data <;> simp [validate_response, hm]
  · cases data <;> simp [validate_response, h1, h2]
  · cases data <;> simp [validate_response, h1, h2]
  · cases data <;> simp [validate_response, h1, h2, Option.isSome]

/-- C5 witness: a payload missing `content` is rejected. -/
theorem validate_response_rejections_witness :
    validate_response (JVal.obj [("type", JVal.str "command")]) = false :=
  validate_response_rejections.1 (JVal.obj [("type", JVal.str "command")]) "content"
    (by decide) rfl

/-- C9: the iteration counter increases monotonically, a full run
executes at most `maxIterations` turns (the counter never exceeds the
cap), and a silent-oracle turn is retried without ending the run while
still advancing the counter toward the cap. -/
theorem control_loop_iteration_bounds :
    ∀ (inputs : Nat → TurnInput) (m i : Nat) (ctx : String),
      (i ≤ m → (runLoop inputs m i ctx).1 ≤ m)
      ∧ i ≤ (runLoop inputs m i ctx).1
      ∧ (i < m → inputs i = TurnInput.silence →
          runLoop inputs m i ctx = runLoop inputs m (i + 1) ctx) := by
  intro inputs m i ctx
  refine ⟨fun h => ?_, ?_, fun hlt hs => ?_⟩
  · have := runAux_le inputs (m - i) i ctx
    unfold runLoop
    omega
  · show i ≤ (runAux inputs (m - i) i ctx).1
    exact runAux_ge inputs (m - i) i ctx
  · unfold runLoop
    have hm : m - i = (m - (i + 1)) + 1 := by omega
    rw [hm, runAux_silence inputs (m - (i + 1)) i ctx hs]

/-- C9 witness: a run of cap 2 fed only silence stays within the cap and
its first turn is a retry. -/
theorem control_loop_iteration_bounds_witness :
    (runLoop (fun _ => TurnInput.silence) 2 0 "").1 ≤ 2
    ∧ runLoop (fun _ => TurnInput.silence) 2 0 ""
        = runLoop (fun _ => TurnInput.silence) 2 1 "" :=
  ⟨(control_loop_iteration_bounds (fun _ => TurnInput.silence) 2 0 "").1 (by decide),
   (control_loop_iteration_bounds (fun _ => TurnInput.silence) 2 0 "").2.2 (by decide) rfl⟩

/-- C10, counterexample: a payload with empty `content` but a non-string
`output_name` makes `run_ai_command` raise `TypeError` (inside
`sanitize_filename`, before the empty-content check) instead of
returning the fixed `"No command to execute."` string. -/
theorem no_command_typeerror_cex :
    jlookup payloadBadOutputName "content" = some (JVal.str "")
    ∧ run_ai_command payloadBadOutputName (RunBehavior.exited 0)
        (FilterBehavior.completed 0 "" "") = Except.error PyErr.typeError := ⟨rfl, rfl⟩

/-- C10 (amended): an absent `content` extracts to the empty command, a
string of backquotes strips to the empty command, and for every payload
whose command is empty and whose `output_name` extraction succeeds (it is
absent or a string), `run_ai_command` returns exactly
`"No command to execute."` with an empty effect trace — no process
spawned, no file created or truncated. -/
theorem no_command_spec :
    (∀ data : JVal, jlookup data "content" = none → contentOf data = Except.ok "")
    ∧ (∀ s : String, s.toList.all (fun c => c == backquoteChar) = true →
        stripBackquotes s = "")
    ∧ (∀ (data : JVal) (rb : RunBehavior) (fb : FilterBehavior) (n : String),
        contentOf data = Except.ok "" → outputNameOf data = Except.ok n →
        run_ai_command data rb fb = Except.ok ("No command to execute.", [])) := by
  refine ⟨fun data h => ?_, fun s h => ?_, fun data rb fb n hc hn => ?_⟩
  · simp [contentOf, h]
  · have h1 : List.dropWhile (fun x => x == backquoteChar) s.data = [] := by
      rw [List.dropWhile_eq_nil_iff]
      intro x hx
      exact List.all_eq_true.mp h x hx
    show String.mk (((List.dropWhile (fun x => x == backquoteChar) s.data).reverse.dropWhile
        (fun x => x == backquoteChar)).reverse) = ""
    rw [h1]
    rfl
  · simp only [run_ai_command, hc, hn]
    simp

/-- C10 witness: the empty-command case applied to a backquotes-only
`content` with `output_name` absent. -/
theorem no_command_spec_witness :
    run_ai_command (JVal.obj [("content", JVal.str "``")]) RunBehavior.spawnError
        (FilterBehavior.completed 0 "" "")
      = Except.ok ("No command to execute.", []) :=
  no_command_spec.2.2 (JVal.obj [("content", JVal.str "``")]) RunBehavior.spawnError
    (FilterBehavior.completed 0 "" "") "output.txt" rfl rfl
